import Mathlib

/-!
# Verification of the minest DNS resolution engine

Shallow embedding, in Lean 4, of the DNS query/response protocol logic of the
`minest` Go repository (packages `dmi` and `minest`) together with proofs of
the behavioural properties claimed by its specification.

Conventions of the embedding:

* Go strings are byte sequences; DNS names are therefore modelled as `List Nat`
  of byte values, so that the byte-wise ASCII case folding of
  `responseEqualASCIIName` is represented faithfully.
* Go `error` results are modelled by `Option DNSError` (`none` = nil error) or
  `Except DNSError` for functions returning `(value, error)` pairs where
  exactly one side is meaningful.  `errors.Join` of a non-empty error list is
  `DNSError.joined`; `errors.Join` of no errors is a nil error (`none`).
* `runtimex.Assert` failures and nil-pointer dereferences are represented by an
  explicit `panicked` outcome.
* Machine integers (`uint16`) are `Nat` with explicit reduction modulo `2 ^ 16`
  where Go arithmetic can wrap.
-/

namespace Minest

/-- A DNS name, as a Go string: a sequence of bytes. -/
abbrev Name : Type := List Nat

/-- The error taxonomy of the `dmi`/`minest` packages.  Each constructor stands
for one of the distinguished `errors.New` values of the source (plus opaque
transport-level I/O errors and `errors.Join` combinations). -/
inductive DNSError : Type where
  /-- `ErrInvalidQuery`: the query does not contain a single question. -/
  | invalidQuery : DNSError
  /-- `ErrInvalidResponse`: not a response or does not match the query. -/
  | invalidResponse : DNSError
  /-- `ErrNoName` ("no such host"): the response code is NXDOMAIN. -/
  | noSuchHost : DNSError
  /-- `ErrServerMisbehaving`: rcode neither 0, nor NXDOMAIN, nor SERVFAIL. -/
  | serverMisbehaving : DNSError
  /-- `ErrServerTemporarilyMisbehaving`: the response code is SERVFAIL. -/
  | serverTemporarilyMisbehaving : DNSError
  /-- `ErrNoData` ("no answer from DNS server"). -/
  | noData : DNSError
  /-- The `errors.New("no configured transport")` error of `Resolver.lookup`. -/
  | noTransport : DNSError
  /-- An opaque transport-level I/O error (dial/read/write failure). -/
  | transportErr : Nat → DNSError
  /-- `errors.Join` of a non-empty list of errors. -/
  | joined : List DNSError → DNSError

/-- `errors.Join(errv...)`: nil when the list is empty, a joined error
otherwise.  (The error lists produced by the embedded code never contain
nil errors, so the nil-filtering of `errors.Join` does not arise.) -/
def goJoin (errv : List DNSError) : Option DNSError :=
  if errv.isEmpty then none else some (.joined errv)

/-- One `dns.Question` of a `dns.Msg` as inspected by the core. -/
structure Question : Type where
  name : Name
  qtype : Nat
  qclass : Nat
deriving DecidableEq, Repr

/-- The `dns.RR_Header` fields inspected by the core. -/
structure RRHeader : Type where
  name : Name
  rrtype : Nat
  rrclass : Nat
deriving DecidableEq, Repr

/-- A typed answer resource record: the closed variant of concrete record
types the Go code distinguishes by dynamic type switch (`*dns.A`,
`*dns.AAAA`, `*dns.CNAME`, anything else).  The address payloads are the
strings produced by `rr.A.String()` / `rr.AAAA.String()`. -/
inductive RR : Type where
  | rrA : RRHeader → String → RR
  | rrAAAA : RRHeader → String → RR
  | rrCNAME : RRHeader → Name → RR
  | rrOther : RRHeader → RR
deriving DecidableEq, Repr

/-- `rr.Header()`. -/
def RR.header : RR → RRHeader
  | .rrA hdr _ => hdr
  | .rrAAAA hdr _ => hdr
  | .rrCNAME hdr _ => hdr
  | .rrOther hdr => hdr

/-- The fields of a `dns.Msg` that the response model inspects. -/
structure Msg : Type where
  id : Nat
  response : Bool
  authoritative : Bool
  recursionAvailable : Bool
  rcode : Nat
  question : List Question
  answer : List RR
deriving DecidableEq, Repr

/-- `dns.RcodeSuccess`. -/
def rcodeSuccess : Nat := 0

/-- `dns.RcodeServerFailure` (SERVFAIL). -/
def rcodeServerFailure : Nat := 2

/-- `dns.RcodeNameError` (NXDOMAIN). -/
def rcodeNameError : Nat := 3

/-- The byte-level lower-casing step of `responseEqualASCIIName`: bytes in
`'A'..'Z'` get `0x20` added. -/
def asciiLowerByte (b : Nat) : Nat :=
  if 65 ≤ b ∧ b ≤ 90 then b + 0x20 else b

/-- `responseEqualASCIIName` (part_009): equal length and byte-wise equality
after ASCII lower-casing of each byte. -/
def responseEqualASCIIName (x y : Name) : Bool :=
  x.length == y.length &&
    (List.zip x y).all fun ab => asciiLowerByte ab.1 == asciiLowerByte ab.2

/-- `responseValidateQueryResp` (part_009): validates a DNS response for a
given query.  Returns the error (`some`) or nil (`none`). -/
def responseValidateQueryResp (query resp : Msg) : Option DNSError :=
  -- 1. make sure the message is actually a response
  if resp.response = false then some .invalidResponse
  -- 2. make sure the response ID matches the query ID
  else if resp.id ≠ query.id then some .invalidResponse
  -- 3. make sure the query and the response contains a question
  else if query.question.length ≠ 1 then some .invalidQuery
  else if resp.question.length ≠ 1 then some .invalidResponse
  else
    match resp.question, query.question with
    | resp0 :: _, query0 :: _ =>
      -- 4. make sure the question name is correct
      if responseEqualASCIIName resp0.name query0.name = false then
        some .invalidResponse
      else if resp0.qclass ≠ query0.qclass then some .invalidResponse
      else if resp0.qtype ≠ query0.qtype then some .invalidResponse
      else none
    | _, _ => some .invalidResponse -- unreachable: both lengths are 1

/-- `responseRcodeToError` (part_009): maps the RCODE of a valid response to
an error compatible with the Go standard library vocabulary. -/
def responseRcodeToError (resp : Msg) : Option DNSError :=
  -- 1. handle NXDOMAIN case by mapping it to EAI_NONAME
  if resp.rcode = rcodeNameError then some .noSuchHost
  -- 2. handle the case of lame referral by mapping it to EAI_NODATA
  else if resp.rcode = rcodeSuccess ∧ resp.authoritative = false ∧
      resp.recursionAvailable = false ∧ resp.answer.length = 0 then some .noData
  -- 3. handle any other error by mapping to EAI_FAIL
  else if resp.rcode ≠ rcodeSuccess then
    if resp.rcode = rcodeServerFailure then some .serverTemporarilyMisbehaving
    else some .serverMisbehaving
  else none

/-- Insertion into the `validNames` set (a Go `map[string]bool` used purely
for membership): `validNames[n] = true`. -/
def validNamesInsert (s : List Name) (n : Name) : List Name :=
  if n ∈ s then s else n :: s

/-- The first loop of `responseGetValidAnswers` (part_009): walks the answer
records building the CNAME chain.  State: the `validNames` set and the
`currentName`.  A CNAME record extends the chain exactly when its owner name
equals the current name (ASCII case-insensitively) and its class equals the
question class; extension records the CNAME owner name and its target into
the set and advances the current name to the target. -/
def responseChainLoop (qclass : Nat) :
    List RR → Name → List Name → List Name × Name
  | [], currentName, validNames => (validNames, currentName)
  | answer :: rest, currentName, validNames =>
    match answer with
    | .rrCNAME hdr target =>
      if responseEqualASCIIName currentName hdr.name && hdr.rrclass == qclass then
        responseChainLoop qclass rest target
          (validNamesInsert (validNamesInsert validNames hdr.name) target)
      else
        responseChainLoop qclass rest currentName validNames
    | _ => responseChainLoop qclass rest currentName validNames

/-- The second loop of `responseGetValidAnswers` (part_009): keeps the answer
records whose owner name is in the valid-name set and whose class equals the
question class, in the original response order. -/
def responseFilterLoop (validNames : List Name) (qclass : Nat) :
    List RR → List RR
  | [] => []
  | answer :: rest =>
    let hdr := answer.header
    -- Check if this RR's name is part of the valid chain
    if hdr.name ∉ validNames then responseFilterLoop validNames qclass rest
    -- Check class matches
    else if qclass ≠ hdr.rrclass then responseFilterLoop validNames qclass rest
    -- Note: several RR types may exist for a given query: no type check
    else answer :: responseFilterLoop validNames qclass rest

/-- `responseGetValidAnswers` (part_009): extracts the valid RRs from the
response for question `q0`, or fails with `ErrNoData` when there are none. -/
def responseGetValidAnswers (q0 : Question) (resp : Msg) :
    Except DNSError (List RR) :=
  -- 1. Build CNAME chain starting from the query name.
  let validNames0 := validNamesInsert [] q0.name
  let chain := responseChainLoop q0.qclass resp.answer q0.name validNames0
  -- 2. Build list of valid answers.
  let valid := responseFilterLoop chain.1 q0.qclass resp.answer
  -- 3. Handle the case of no valid answers.
  if valid.length < 1 then .error .noData
  -- 4. Return the list.
  else .ok valid

/-- The `Response` structure (part_009): query, response and valid RRs. -/
structure ResponseV : Type where
  Query : Msg
  Response : Msg
  ValidRRs : List RR
deriving DecidableEq, Repr

/-- `NewResponse` (part_009): validates the response for the query, maps the
RCODE, extracts the valid answers and builds the `Response`. -/
def NewResponse (query resp : Msg) : Except DNSError ResponseV :=
  match responseValidateQueryResp query resp with
  | some e => .error e
  | none =>
    match responseRcodeToError resp with
    | some e => .error e
    | none =>
      match query.question with
      | q0 :: _ =>
        match responseGetValidAnswers q0 resp with
        | .error e => .error e
        | .ok rrs => .ok { Query := query, Response := resp, ValidRRs := rrs }
      | [] => .error .invalidQuery -- unreachable: checked by responseValidateQueryResp

/-- `Response.RecordsA` (part_009): all the A record addresses among the
valid RRs, or `ErrNoData` when there is none. -/
def ResponseV.RecordsA (r : ResponseV) : Except DNSError (List String) :=
  let out := r.ValidRRs.filterMap fun rr =>
    match rr with
    | .rrA _ addr => some addr
    | _ => none
  if out.length < 1 then .error .noData else .ok out

/-- `Response.RecordsAAAA` (part_009): all the AAAA record addresses among
the valid RRs, or `ErrNoData` when there is none. -/
def ResponseV.RecordsAAAA (r : ResponseV) : Except DNSError (List String) :=
  let out := r.ValidRRs.filterMap fun rr =>
    match rr with
    | .rrAAAA _ addr => some addr
    | _ => none
  if out.length < 1 then .error .noData else .ok out

/-- `Response.RecordFirstCNAME` (part_009): the first CNAME target among the
valid RRs, or `ErrNoData`. -/
def ResponseV.RecordFirstCNAME (r : ResponseV) : Except DNSError Name :=
  match r.ValidRRs.findSome? fun rr =>
    match rr with
    | .rrCNAME _ target => some target
    | _ => none
  with
  | some target => .ok target
  | none => .error .noData

/-! ## Query model (query.go / dnscodec) -/

/-- `queryFlagBlockLengthPadding` (query.go): request RFC 8467 padding. -/
def queryFlagBlockLengthPadding : Nat := 1

/-- `queryFlagDNSSec` (query.go): request DNSSEC signatures. -/
def queryFlagDNSSec : Nat := 2

/-- `queryMaxResponseSizeUDP` (query.go). -/
def queryMaxResponseSizeUDP : Nat := 1232

/-- `queryMaxResponseSizeTCP` (query.go). -/
def queryMaxResponseSizeTCP : Nat := 4096

/-- The `Query` value (query.go / dnscodec.Query): name, type, flags, id and
maximum response size.  The numeric fields are `uint16` values. -/
structure Query : Type where
  name : Name
  qtype : Nat
  flags : Nat
  id : Nat
  maxSize : Nat
deriving DecidableEq, Repr

/-- `NewQuery` (query.go): zero flags, zero id, default UDP max size. -/
def NewQuery (name : Name) (qtype : Nat) : Query :=
  { name := name, qtype := qtype, flags := 0, id := 0
    maxSize := queryMaxResponseSizeUDP }

/-- `Query.Clone` (query.go): a field-by-field copy of the query. -/
def Query.Clone (q : Query) : Query :=
  { name := q.name, qtype := q.qtype, flags := q.flags, id := q.id
    maxSize := q.maxSize }

/-- The padding computation of `Query.NewMsg` (query.go, step guarded by the
padding flag): `remainder := (desiredSize - uint16(msg.Len()+4)) % desiredSize`
with `desiredSize = 128`, evaluated in `uint16` arithmetic.  The conversion
`uint16(msg.Len()+4)` truncates modulo `2 ^ 16` and the subtraction wraps
modulo `2 ^ 16`. -/
def queryPaddingRemainder (msgLen : Nat) : Nat :=
  let m := (msgLen + 4) % 65536
  ((128 + 65536 - m) % 65536) % 128

/-- The padding option appended by `Query.NewMsg` (query.go): when the
padding flag is set, an `EDNS0_PADDING` option of `queryPaddingRemainder`
bytes is appended; otherwise no padding option is added.  `msgLen` is the
length `msg.Len()` of the encoded message before padding. -/
def newMsgPaddingOption (flags : Nat) (msgLen : Nat) : Option Nat :=
  if flags &&& queryFlagBlockLengthPadding != 0 then
    some (queryPaddingRemainder msgLen)
  else none

/-! ### Pointer-level model of query cloning and transport-local mutation

A Go transport receives `query *dnscodec.Query` and runs
`query = query.Clone()` followed by field assignments, so the mutations land
on a freshly allocated copy.  To state that the caller's query cell is left
unchanged we embed the pointer semantics explicitly: a heap of `Query` cells
addressed by index, with `Clone` allocating a new cell. -/

/-- A heap of `Query` cells; a pointer is an index into the list. -/
abbrev QueryHeap : Type := List Query

instance : Inhabited Query :=
  ⟨NewQuery [] 0⟩

/-- Dereference a query pointer. -/
def heapRead (h : QueryHeap) (p : Nat) : Query := h.getD p default

/-- Assign through a query pointer. -/
def heapWrite (h : QueryHeap) (p : Nat) (q : Query) : QueryHeap := h.set p q

/-- Allocate a fresh cell holding `q`; returns the new heap and pointer. -/
def heapAlloc (h : QueryHeap) (q : Query) : QueryHeap × Nat :=
  (h ++ [q], h.length)

/-- `query.Clone()` at the heap level: read the pointed-to query and allocate
an independent copy built field by field (query.go lines 69-77). -/
def queryCloneAlloc (h : QueryHeap) (p : Nat) : QueryHeap × Nat :=
  heapAlloc h (Query.Clone (heapRead h p))

/-- The query mutation performed by `UDPExchanger.Exchange` (udp.go):
`query = query.Clone(); query.id = dns.Id(); query.maxSize =
queryMaxResponseSizeUDP`, at the heap level.  `freshId` stands for the random
id produced by `dns.Id()`.  Returns the heap and the transport's pointer. -/
def udpExchangeMutate (h : QueryHeap) (p : Nat) (freshId : Nat) :
    QueryHeap × Nat :=
  let hp := queryCloneAlloc h p
  let h1 := heapWrite hp.1 hp.2 { heapRead hp.1 hp.2 with id := freshId }
  let h2 := heapWrite h1 hp.2
    { heapRead h1 hp.2 with maxSize := queryMaxResponseSizeUDP }
  (h2, hp.2)

/-- The query mutation performed by `DNSOverUDPTransport.SendQuery`
(dnsoverudp.go): `query = query.Clone(); query.MaxSize =
dnscodec.QueryMaxResponseSizeUDP`, at the heap level. -/
def douSendQueryMutate (h : QueryHeap) (p : Nat) : QueryHeap × Nat :=
  let hp := queryCloneAlloc h p
  let h1 := heapWrite hp.1 hp.2
    { heapRead hp.1 hp.2 with maxSize := queryMaxResponseSizeUDP }
  (h1, hp.2)

/-! ## Resolver (part_003, package minest) and Client (client.go, package dmi)

The lookup logic is embedded as a function of (a) the cancellation state of
the caller's context, modelled as a boolean that is constant across the
transport loop (adequate because the claims concern contexts that are either
canceled before the lookup starts or never canceled during it), and (b) the
behaviour of each configured transport, modelled as the function from the
query to the exchange result.  `dnscodec.Query`/`dnscodec.Response` mirror
the in-repository `dmi` implementations embedded above. -/

/-- `dns.TypeA`. -/
def typeA : Nat := 1

/-- `dns.TypeCNAME`. -/
def typeCNAME : Nat := 5

/-- `dns.TypeAAAA`. -/
def typeAAAA : Nat := 28

/-- A `DNSTransport`/`ClientExchanger`: one exchange, as a function from the
query to the response or error. -/
abbrev DNSTransport : Type := Query → Except DNSError ResponseV

/-- The outcome of a Go call that can also fail a `runtimex.Assert` or hit a
nil-pointer dereference: value, error, or runtime panic. -/
inductive Outcome (α : Type) : Type where
  | ok : α → Outcome α
  | err : DNSError → Outcome α
  | panicked : Outcome α

/-- Lift a `(value, error)` pair with exactly one meaningful side. -/
def exceptToOutcome {α : Type} : Except DNSError α → Outcome α
  | .ok a => .ok a
  | .error e => .err e

/-- The code after `Resolver.lookup`'s transport loop (part_003):
`runtimex.Assert(len(errv) >= 1)` followed by
`return nil, errors.Join(errv...)`. -/
def resolverLookupFinish (errv : List DNSError) : Outcome ResponseV :=
  if errv.length ≥ 1 then .err (.joined errv) else .panicked

/-- The transport loop of `Resolver.lookup` (part_003): skip the remaining
transports once the context is done, return the first successful response,
collect each failure into `errv`. -/
def resolverLookupLoop (canceled : Bool) (q : Query) :
    List DNSTransport → List DNSError → Outcome ResponseV
  | [], errv => resolverLookupFinish errv
  | t :: rest, errv =>
    if canceled then resolverLookupFinish errv
    else
      match t q with
      | .ok resp => .ok resp
      | .error e => resolverLookupLoop canceled q rest (errv ++ [e])

/-- `Resolver.lookup` (part_003): fails with the "no configured transport"
error when the transport list is empty, otherwise runs the transport loop. -/
def resolverLookup (canceled : Bool) (transports : List DNSTransport)
    (q : Query) : Outcome ResponseV :=
  if transports.length ≤ 0 then .err .noTransport
  else resolverLookupLoop canceled q transports []

/-- `Resolver.LookupA` (part_003): typed A query, lookup, `RecordsA`. -/
def resolverLookupA (canceled : Bool) (transports : List DNSTransport)
    (domain : Name) : Outcome (List String) :=
  match resolverLookup canceled transports (NewQuery domain typeA) with
  | .err e => .err e
  | .panicked => .panicked
  | .ok resp => exceptToOutcome resp.RecordsA

/-- `Resolver.LookupAAAA` (part_003): typed AAAA query, lookup,
`RecordsAAAA`. -/
def resolverLookupAAAA (canceled : Bool) (transports : List DNSTransport)
    (domain : Name) : Outcome (List String) :=
  match resolverLookup canceled transports (NewQuery domain typeAAAA) with
  | .err e => .err e
  | .panicked => .panicked
  | .ok resp => exceptToOutcome resp.RecordsAAAA

/-- Modelled from the spec: `dnscodec.Response.RecordsCNAME`, the projection
used by `Resolver.LookupCNAME` and `Client.LookupCNAME`, is not under `src/`
(it lives in the external `dnscodec` module).  Per the specification it
projects the valid RRs by the CNAME record type and fails with `NoData` when
no record of the requested type is present. -/
def ResponseV.RecordsCNAME (r : ResponseV) : Except DNSError (List Name) :=
  let out := r.ValidRRs.filterMap fun rr =>
    match rr with
    | .rrCNAME _ target => some target
    | _ => none
  if out.length < 1 then .error .noData else .ok out

/-- `Resolver.LookupCNAME` (part_003): typed CNAME query, lookup,
`RecordsCNAME`, `runtimex.Assert(len(cnames) > 0)`, first element. -/
def resolverLookupCNAME (canceled : Bool) (transports : List DNSTransport)
    (domain : Name) : Outcome Name :=
  match resolverLookup canceled transports (NewQuery domain typeCNAME) with
  | .err e => .err e
  | .panicked => .panicked
  | .ok resp =>
    match resp.RecordsCNAME with
    | .error e => .err e
    | .ok cnames =>
      match cnames with
      | cname0 :: _ => .ok cname0
      | [] => .panicked

/-- The value carried by a sub-lookup result: the Go `Value` field, which is
nil (empty) when the sub-lookup failed. -/
def outcomeValue (r : Outcome (List String)) : List String :=
  match r with
  | .ok addrs => addrs
  | _ => []

/-- The merge step of `LookupHost` (part_003 / client.go): both sub-lookups
failed → `errors.Join` of the two errors; otherwise append the A results and
the AAAA results (in that order) and fail with `ErrNoData` when the merged
list is empty.  A panic in either sub-lookup goroutine crashes the call. -/
def lookupHostMerge (ares aaaares : Outcome (List String)) :
    Outcome (List String) :=
  match ares, aaaares with
  | .panicked, _ => .panicked
  | _, .panicked => .panicked
  | .err e1, .err e2 => .err (.joined [e1, e2])
  | a, b =>
    let addrs := outcomeValue a ++ outcomeValue b
    if addrs.length < 1 then .err .noData else .ok addrs

/-- `Resolver.LookupHost` (part_003): run `LookupA` and `LookupAAAA` (the
concurrency is joined by `wg.Wait` before either channel is read, so the
result is a pure function of the two sub-lookup results) and merge. -/
def resolverLookupHost (canceled : Bool) (transports : List DNSTransport)
    (domain : Name) : Outcome (List String) :=
  lookupHostMerge (resolverLookupA canceled transports domain)
    (resolverLookupAAAA canceled transports domain)

/-- The exchanger loop of `Client.lookup` (client.go): like the resolver loop
but with no assertion after it; returns the Go `(resp, err)` pair where both
components may be nil. -/
def clientLookupLoop (canceled : Bool) (q : Query) :
    List DNSTransport → List DNSError → Option ResponseV × Option DNSError
  | [], errv => (none, goJoin errv)
  | t :: rest, errv =>
    if canceled then (none, goJoin errv)
    else
      match t q with
      | .ok resp => (some resp, none)
      | .error e => clientLookupLoop canceled q rest (errv ++ [e])

/-- `Client.lookup` (client.go): no empty-exchanger check, just the loop and
`errors.Join(errv...)` at the end. -/
def clientLookup (canceled : Bool) (exchangers : List DNSTransport)
    (q : Query) : Option ResponseV × Option DNSError :=
  clientLookupLoop canceled q exchangers []

/-- `Client.LookupA` (client.go): when `lookup` returns a nil error together
with a nil response, `resp.RecordsA()` dereferences a nil pointer. -/
def clientLookupA (canceled : Bool) (exchangers : List DNSTransport)
    (domain : Name) : Outcome (List String) :=
  match clientLookup canceled exchangers (NewQuery domain typeA) with
  | (_, some e) => .err e
  | (some resp, none) => exceptToOutcome resp.RecordsA
  | (none, none) => .panicked

/-- `Client.LookupAAAA` (client.go). -/
def clientLookupAAAA (canceled : Bool) (exchangers : List DNSTransport)
    (domain : Name) : Outcome (List String) :=
  match clientLookup canceled exchangers (NewQuery domain typeAAAA) with
  | (_, some e) => .err e
  | (some resp, none) => exceptToOutcome resp.RecordsAAAA
  | (none, none) => .panicked

/-- `Client.LookupHost` (client.go): same merge as the resolver. -/
def clientLookupHost (canceled : Bool) (exchangers : List DNSTransport)
    (domain : Name) : Outcome (List String) :=
  lookupHostMerge (clientLookupA canceled exchangers domain)
    (clientLookupAAAA canceled exchangers domain)

/-! ## Dialer (part_006, package minest)

`DialContext` splits the address into host and port (a standard-library
collaborator, assumed successful here), short-circuits IP literals, resolves
the host otherwise, asserts at least one address, and attempts the candidate
addresses sequentially.  `net.ParseIP` is the abstract `parseIPOk` predicate;
the injected low-level connector, with the network and port of this call
fixed, is the abstract `dial` function; connections are opaque tags. -/

/-- Outcome of `Dialer.DialContext`. -/
inductive DialOutcome : Type where
  | conn : Nat → DialOutcome
  | err : DNSError → DialOutcome
  /-- `(nil, nil)`: the end-of-loop `errors.Join` of an empty error list. -/
  | errNil : DialOutcome
  | panicked : DialOutcome

/-- `Dialer.lookupHost` (part_006): short-circuit IP literals, else call the
injected resolver. -/
def dialerLookupHost (parseIPOk : String → Bool)
    (reso : String → Except DNSError (List String)) (name : String) :
    Except DNSError (List String) :=
  if parseIPOk name then .ok [name] else reso name

/-- The sequential connect loop of `Dialer.DialContext` (part_006): first
success wins, otherwise every per-address error is collected and joined. -/
def dialerDialLoop (dial : String → Except DNSError Nat) :
    List String → List DNSError → DialOutcome
  | [], errv =>
    match goJoin errv with
    | some e => .err e
    | none => .errNil
  | addr :: rest, errv =>
    match dial addr with
    | .ok c => .conn c
    | .error e => dialerDialLoop dial rest (errv ++ [e])

/-- `Dialer.DialContext` (part_006): resolve (or short-circuit), assert the
resolver returned at least one address (`runtimex.Assert(len(addrs) >= 1)`),
then attempt the addresses sequentially. -/
def dialerDialContext (parseIPOk : String → Bool)
    (reso : String → Except DNSError (List String))
    (dial : String → Except DNSError Nat) (name : String) : DialOutcome :=
  match dialerLookupHost parseIPOk reso name with
  | .error e => .err e
  | .ok addrs =>
    if addrs.length ≥ 1 then dialerDialLoop dial addrs []
    else .panicked

/-! ## Concrete example inputs used by the witnesses -/

/-- Example question: name `"a"` (byte 97), type A, class IN. -/
def exQuestion : Question := { name := [97], qtype := typeA, qclass := 1 }

/-- Example CNAME record `"a" -> "b"`. -/
def exCNAME : RR :=
  .rrCNAME { name := [97], rrtype := typeCNAME, rrclass := 1 } [98]

/-- Example A record owned by `"b"` (on the CNAME chain). -/
def exA1 : RR := .rrA { name := [98], rrtype := typeA, rrclass := 1 } "10.0.0.1"

/-- Example A record owned by `"c"` (not on the CNAME chain). -/
def exA2 : RR := .rrA { name := [99], rrtype := typeA, rrclass := 1 } "10.0.0.2"

/-- Example AAAA record owned by `"b"`. -/
def exAAAA : RR :=
  .rrAAAA { name := [98], rrtype := typeAAAA, rrclass := 1 } "2001:db8::1"

/-- Example query message for `exQuestion` with id 7. -/
def exQueryMsg : Msg :=
  { id := 7, response := false, authoritative := false
    recursionAvailable := false, rcode := 0, question := [exQuestion]
    answer := [] }

/-- Example valid response to `exQueryMsg`: CNAME chain `"a" -> "b"` plus an
on-chain A record, an off-chain A record and an on-chain AAAA record. -/
def exRespMsg : Msg :=
  { id := 7, response := true, authoritative := false
    recursionAvailable := true, rcode := 0, question := [exQuestion]
    answer := [exCNAME, exA1, exA2, exAAAA] }

/-- Example non-response message (response flag unset). -/
def exBadRespMsg : Msg :=
  { id := 7, response := false, authoritative := false
    recursionAvailable := true, rcode := 0, question := [exQuestion]
    answer := [exA1] }

/-- The error component of a Go `(value, error)` result. -/
def exceptErrOption {α : Type} : Except DNSError α → Option DNSError
  | .error e => some e
  | .ok _ => none

/-- Example `Response` value built by `NewResponse exQueryMsg exRespMsg`. -/
def exResponse : ResponseV :=
  { Query := exQueryMsg, Response := exRespMsg
    ValidRRs := [exCNAME, exA1, exAAAA] }

/-- Example transport that always succeeds with `exResponse`. -/
def exTransport : DNSTransport := fun _ => .ok exResponse

/-! ## Theorems -/

/-- The padding amount computed in `uint16` arithmetic always lands in
`[0, 128)` and completes the message to a multiple of 128. -/
theorem queryPaddingRemainder_spec (msgLen : Nat) :
    (msgLen + 4 + queryPaddingRemainder msgLen) % 128 = 0 ∧
      queryPaddingRemainder msgLen < 128 := by
  have hdef : queryPaddingRemainder msgLen =
      ((128 + 65536 - (msgLen + 4) % 65536) % 65536) % 128 := rfl
  rw [hdef]
  omega

/-- C3: whenever the padding flag makes `Query.NewMsg` append a padding
option of `P` bytes for a message of encoded length `L`, the total
`L + 4 + P` (4 bytes of option overhead) is a multiple of the 128-byte block
and `0 ≤ P < 128`; the `uint16` wraparound computation never produces an
out-of-range amount, for every representable length. -/
theorem newMsg_padding_block_aligned (flags msgLen P : Nat)
    (h : newMsgPaddingOption flags msgLen = some P) :
    (msgLen + 4 + P) % 128 = 0 ∧ P < 128 := by
  unfold newMsgPaddingOption at h
  by_cases hf : flags &&& queryFlagBlockLengthPadding != 0
  · simp only [hf, if_true, Option.some.injEq] at h
    subst h
    exact queryPaddingRemainder_spec msgLen
  · simp [hf] at h

/-- Witness for C3: a concrete 20-byte message with the padding flag set
receives 104 bytes of padding, reaching the 128-byte block boundary. -/
theorem newMsg_padding_block_aligned_witness :
    (20 + 4 + 104) % 128 = 0 ∧ 104 < 128 :=
  newMsg_padding_block_aligned 1 20 104 (by decide)

theorem heapRead_alloc_new (h : QueryHeap) (q : Query) :
    heapRead (h ++ [q]) h.length = q := by
  simp [heapRead, List.getD, List.getElem?_append_right]

theorem heapRead_alloc_old (h : QueryHeap) (q : Query) (p : Nat)
    (hp : p < h.length) : heapRead (h ++ [q]) p = heapRead h p := by
  simp [heapRead, List.getD, List.getElem?_append_left hp]

theorem heapRead_write_same (h : QueryHeap) (p : Nat) (q : Query)
    (hp : p < h.length) : heapRead (heapWrite h p q) p = q := by
  simp [heapRead, heapWrite, List.getD, List.getElem?_set, hp]

theorem heapRead_write_other (h : QueryHeap) (p p' : Nat) (q : Query)
    (hne : p' ≠ p) : heapRead (heapWrite h p q) p' = heapRead h p' := by
  simp [heapRead, heapWrite, List.getD, List.getElem?_set, hne.symm]

theorem Query.Clone_eq (q : Query) : Query.Clone q = q := rfl

/-- C9: the caller's `Query` cell is unchanged by a transport exchange.
`Clone` allocates an independent cell whose fields equal the original's, the
transport's id/max-size mutations land on that fresh cell only (shown for
`UDPExchanger.Exchange` and `DNSOverUDPTransport.SendQuery`), and the
caller's cell reads back identical afterwards. -/
theorem query_clone_isolates_transport_mutation (h : QueryHeap)
    (p freshId : Nat) (hp : p < h.length) :
    heapRead (queryCloneAlloc h p).1 (queryCloneAlloc h p).2 = heapRead h p ∧
    (queryCloneAlloc h p).2 ≠ p ∧
    heapRead (udpExchangeMutate h p freshId).1 p = heapRead h p ∧
    heapRead (udpExchangeMutate h p freshId).1
        (udpExchangeMutate h p freshId).2 =
      { heapRead h p with id := freshId
                          maxSize := queryMaxResponseSizeUDP } ∧
    heapRead (douSendQueryMutate h p).1 p = heapRead h p ∧
    heapRead (douSendQueryMutate h p).1 (douSendQueryMutate h p).2 =
      { heapRead h p with maxSize := queryMaxResponseSizeUDP } := by
  have hlen : p ≠ h.length := Nat.ne_of_lt hp
  have hlt2 : h.length < (h ++ [heapRead h p]).length := by simp
  refine ⟨?_, ?_, ?_, ?_, ?_, ?_⟩
  · simp only [queryCloneAlloc, heapAlloc]
    rw [heapRead_alloc_new, Query.Clone_eq]
  · simp only [queryCloneAlloc, heapAlloc]
    exact hlen.symm
  · simp only [udpExchangeMutate, queryCloneAlloc, heapAlloc]
    rw [heapRead_write_other _ _ _ _ hlen, heapRead_write_other _ _ _ _ hlen,
      heapRead_alloc_old _ _ _ hp]
  · simp only [udpExchangeMutate, queryCloneAlloc, heapAlloc]
    rw [heapRead_alloc_new, Query.Clone_eq]
    rw [heapRead_write_same]
    · rw [heapRead_write_same _ _ _ hlt2]
    · simp [heapWrite]
  · simp only [douSendQueryMutate, queryCloneAlloc, heapAlloc]
    rw [heapRead_write_other _ _ _ _ hlen, heapRead_alloc_old _ _ _ hp]
  · simp only [douSendQueryMutate, queryCloneAlloc, heapAlloc]
    rw [heapRead_alloc_new, Query.Clone_eq, heapRead_write_same _ _ _ hlt2]

/-- Witness for C9 at a concrete one-cell heap. -/
theorem query_clone_isolates_transport_mutation_witness :
    heapRead (udpExchangeMutate [NewQuery [119] 1] 0 42).1 0 =
        NewQuery [119] 1 ∧
      heapRead (udpExchangeMutate [NewQuery [119] 1] 0 42).1
          (udpExchangeMutate [NewQuery [119] 1] 0 42).2 =
        { NewQuery [119] 1 with id := 42
                                maxSize := queryMaxResponseSizeUDP } := by
  have hmain := query_clone_isolates_transport_mutation [NewQuery [119] 1] 0
    42 (by decide)
  refine ⟨?_, ?_⟩
  · have := hmain.2.2.1
    simpa using this
  · have := hmain.2.2.2.1
    simpa using this

/-- C2 counterexample: a success-coded, authoritative response with zero
answers maps to no error, so "no error iff plain success with at least one
matching answer path" fails: no error is returned although there is no
answer at all. -/
theorem responseRcodeToError_none_with_zero_answers :
    responseRcodeToError
        { id := 1, response := true, authoritative := true
          recursionAvailable := false, rcode := rcodeSuccess, question := []
          answer := [] } = none ∧
      ({ id := 1, response := true, authoritative := true
         recursionAvailable := false, rcode := rcodeSuccess, question := []
         answer := [] : Msg }).answer.length = 0 :=
  ⟨rfl, rfl⟩

/-- C2 (amended): the result-code mapping returns `NoSuchHost` iff the rcode
is name-error; `NoData` iff the rcode is success with the authoritative and
recursion-available flags unset and zero answers; `ServerTemporarilyMisbehaving`
iff the rcode is server-failure; `ServerMisbehaving` iff the rcode is any
other non-success code; and no error iff the rcode is success and the
lame-referral condition does not hold (authoritative, or recursion available,
or at least one answer). -/
theorem responseRcodeToError_characterization (resp : Msg) :
    (responseRcodeToError resp = some .noSuchHost ↔
      resp.rcode = rcodeNameError) ∧
    (responseRcodeToError resp = some .noData ↔
      (resp.rcode = rcodeSuccess ∧ resp.authoritative = false ∧
        resp.recursionAvailable = false ∧ resp.answer.length = 0)) ∧
    (responseRcodeToError resp = some .serverTemporarilyMisbehaving ↔
      resp.rcode = rcodeServerFailure) ∧
    (responseRcodeToError resp = some .serverMisbehaving ↔
      (resp.rcode ≠ rcodeSuccess ∧ resp.rcode ≠ rcodeNameError ∧
        resp.rcode ≠ rcodeServerFailure)) ∧
    (responseRcodeToError resp = none ↔
      (resp.rcode = rcodeSuccess ∧ ¬(resp.authoritative = false ∧
        resp.recursionAvailable = false ∧ resp.answer.length = 0))) := by
  unfold responseRcodeToError rcodeSuccess rcodeNameError rcodeServerFailure
  split_ifs with h1 h2 h3 h4 <;>
    simp_all

/-- The valid-name set built by the CNAME-chain pass of
`responseGetValidAnswers` for question `q0` over the answers of `resp`. -/
def responseValidNames (q0 : Question) (resp : Msg) : List Name :=
  (responseChainLoop q0.qclass resp.answer q0.name
    (validNamesInsert [] q0.name)).1

/-- The record filter described by the specification: owner name in the
valid-name set and class equal to the question class. -/
def responseKeep (vn : List Name) (qclass : Nat) (rr : RR) : Bool :=
  decide (rr.header.name ∈ vn) && decide (qclass = rr.header.rrclass)

theorem responseFilterLoop_eq_filter (vn : List Name) (qc : Nat)
    (l : List RR) :
    responseFilterLoop vn qc l = l.filter (responseKeep vn qc) := by
  induction l with
  | nil => rfl
  | cons a rest ih =>
    by_cases hmem : a.header.name ∈ vn
    · by_cases hcls : qc = a.header.rrclass
      · have hk : responseKeep vn qc a = true := by
          simp [responseKeep, hmem, hcls]
        simp only [responseFilterLoop]
        rw [if_neg (not_not_intro hmem), if_neg (not_not_intro hcls)]
        simp [List.filter_cons, hk, ih]
      · have hk : responseKeep vn qc a = false := by
          simp [responseKeep, hcls]
        simp only [responseFilterLoop]
        rw [if_neg (not_not_intro hmem), if_pos hcls]
        simp [List.filter_cons, hk, ih]
    · have hk : responseKeep vn qc a = false := by
        simp [responseKeep, hmem]
      simp only [responseFilterLoop]
      rw [if_pos hmem]
      simp [List.filter_cons, hk, ih]

/-- C1: the valid-answer extraction returns exactly the answer records whose
owner name lies in the CNAME-chain valid-name set and whose class equals the
question class (this keeps the chain CNAMEs themselves together with every
other matching record), in the original response order (the output is a
sublist of the answers); it fails with `NoData` exactly when that filtered
list is empty; and the chain advances at a CNAME record exactly when the
record's owner name equals the current name under ASCII case-insensitive
comparison and its class matches the question class. -/
theorem responseGetValidAnswers_spec (q0 : Question) (resp : Msg) :
    (responseGetValidAnswers q0 resp = .error .noData ↔
      resp.answer.filter (responseKeep (responseValidNames q0 resp)
        q0.qclass) = []) ∧
    (∀ out, responseGetValidAnswers q0 resp = .ok out →
      out = resp.answer.filter (responseKeep (responseValidNames q0 resp)
          q0.qclass) ∧
        out.Sublist resp.answer ∧ out ≠ []) ∧
    (∀ hdr target rest cur names,
      responseChainLoop q0.qclass (.rrCNAME hdr target :: rest) cur names =
        if responseEqualASCIIName cur hdr.name && hdr.rrclass == q0.qclass then
          responseChainLoop q0.qclass rest target
            (validNamesInsert (validNamesInsert names hdr.name) target)
        else responseChainLoop q0.qclass rest cur names) := by
  have hfl := responseFilterLoop_eq_filter (responseValidNames q0 resp)
    q0.qclass resp.answer
  have hdef : responseGetValidAnswers q0 resp =
      (if (responseFilterLoop (responseValidNames q0 resp) q0.qclass
            resp.answer).length < 1 then
        Except.error DNSError.noData
      else Except.ok (responseFilterLoop (responseValidNames q0 resp)
        q0.qclass resp.answer)) := rfl
  refine ⟨?_, ?_, ?_⟩
  · rw [hdef, hfl]
    split_ifs with hlen
    · simp only [true_iff]
      exact List.eq_nil_of_length_eq_zero (by omega)
    · constructor
      · intro h
        exact h.elim
      · intro h
        rw [h] at hlen
        simp at hlen
  · intro out hout
    rw [hdef, hfl] at hout
    split_ifs at hout with hlen
    injection hout with h
    subst h
    refine ⟨rfl, List.filter_sublist _, ?_⟩
    intro hnil
    rw [hnil] at hlen
    simp at hlen
  · intro hdr target rest cur names
    rfl

end Minest

namespace Minest

/-- Witness for C1: on the concrete chain "a" -> "b" with one on-chain A
record, one off-chain A record and one on-chain AAAA record, the extraction
keeps exactly the chain CNAME and the two on-chain records, in response
order. -/
theorem responseGetValidAnswers_spec_witness :
    [exCNAME, exA1, exAAAA] = exRespMsg.answer.filter
        (responseKeep (responseValidNames exQuestion exRespMsg)
          exQuestion.qclass) ∧
      List.Sublist [exCNAME, exA1, exAAAA] exRespMsg.answer ∧
      [exCNAME, exA1, exAAAA] ≠ [] :=
  (responseGetValidAnswers_spec exQuestion exRespMsg).2.1
    [exCNAME, exA1, exAAAA] (by rfl)

end Minest

namespace Minest

theorem responseGetValidAnswers_ok_ne_nil (q0 : Question) (resp : Msg)
    (out : List RR) (h : responseGetValidAnswers q0 resp = .ok out) :
    out ≠ [] := by
  simp only [responseGetValidAnswers] at h
  split_ifs at h with hlen
  injection h with h
  subst h
  intro hnil
  rw [hnil] at hlen
  simp at hlen

/-- C4: whenever `NewResponse` succeeds the constructed `Response` has a
non-empty `ValidRRs` sequence; whenever `responseValidateQueryResp` reports
an error, `NewResponse` returns exactly that error and no `Response`; and
validation does report an error in each failure case of the claim (not a
response, id mismatch, question-count mismatch, question name/class/type
mismatch). -/
theorem NewResponse_spec (query resp : Msg) :
    (∀ rp, NewResponse query resp = .ok rp → rp.ValidRRs ≠ []) ∧
    (∀ e, responseValidateQueryResp query resp = some e →
      NewResponse query resp = .error e) ∧
    ((resp.response = false ∨ resp.id ≠ query.id ∨
        query.question.length ≠ 1 ∨ resp.question.length ≠ 1 ∨
        (∃ q0 r0 qrest rrest, query.question = q0 :: qrest ∧
          resp.question = r0 :: rrest ∧
          (responseEqualASCIIName r0.name q0.name = false ∨
            r0.qclass ≠ q0.qclass ∨ r0.qtype ≠ q0.qtype))) →
      ∃ e, responseValidateQueryResp query resp = some e) := by
  refine ⟨?_, ?_, ?_⟩
  · intro rp hok
    cases hval : responseValidateQueryResp query resp with
    | some e =>
      simp only [NewResponse, hval] at hok
      exact Except.noConfusion hok
    | none =>
      cases hrc : responseRcodeToError resp with
      | some e =>
        simp only [NewResponse, hval, hrc] at hok
        exact Except.noConfusion hok
      | none =>
        cases hq : query.question with
        | nil =>
          simp only [NewResponse, hval, hrc, hq] at hok
          exact Except.noConfusion hok
        | cons q0 qrest =>
          cases hg : responseGetValidAnswers q0 resp with
          | error e =>
            simp only [NewResponse, hval, hrc, hq, hg] at hok
            exact Except.noConfusion hok
          | ok rrs =>
            simp only [NewResponse, hval, hrc, hq, hg, Except.ok.injEq]
              at hok
            rw [← hok]
            simpa using responseGetValidAnswers_ok_ne_nil q0 resp rrs hg
  · intro e he
    simp only [NewResponse, he]
  · intro hdisj
    simp only [responseValidateQueryResp]
    split_ifs with h1 h2 h3 h4
    · exact ⟨_, rfl⟩
    · exact ⟨_, rfl⟩
    · exact ⟨_, rfl⟩
    · exact ⟨_, rfl⟩
    · rcases hdisj with h | h | h | h |
        ⟨q0, r0, qrest, rrest, hq, hr, hmis⟩
      · exact absurd h h1
      · exact absurd h h2
      · exact absurd h h3
      · exact absurd h h4
      · rw [hq, hr]
        simp only []
        split_ifs with g1 g2 g3
        · exact ⟨_, rfl⟩
        · exact ⟨_, rfl⟩
        · exact ⟨_, rfl⟩
        · rcases hmis with hm | hm | hm
          · exact absurd hm g1
          · exact absurd hm g2
          · exact absurd hm g3

/-- Witness for C4: `NewResponse` succeeds on the concrete example with a
non-empty `ValidRRs`, and fails with `InvalidResponse` on the message whose
response flag is unset. -/
theorem NewResponse_spec_witness :
    ({ Query := exQueryMsg, Response := exRespMsg
       ValidRRs := [exCNAME, exA1, exAAAA] } : ResponseV).ValidRRs ≠ [] ∧
      NewResponse exQueryMsg exBadRespMsg = .error .invalidResponse :=
  ⟨(NewResponse_spec exQueryMsg exRespMsg).1 _ (by rfl),
   (NewResponse_spec exQueryMsg exBadRespMsg).2.1 .invalidResponse (by rfl)⟩

end Minest

namespace Minest

/-- C5: `LookupHost` is the merge of the two sub-lookup results (the code
joins both goroutines with `wg.Wait` and then reads both channels, so the
merge is a pure function of the two results, independent of completion
order); when both sub-lookups fail the result is the `errors.Join` of the
two errors in A-then-AAAA order; otherwise the result is the A addresses
followed by the AAAA addresses, without deduplication, and it fails with
`NoData` exactly when that merged list is empty. -/
theorem resolverLookupHost_merge_spec (canceled : Bool)
    (ts : List DNSTransport) (domain : Name) (e1 e2 : DNSError)
    (as bs : List String) :
    resolverLookupHost canceled ts domain =
      lookupHostMerge (resolverLookupA canceled ts domain)
        (resolverLookupAAAA canceled ts domain) ∧
    lookupHostMerge (.err e1) (.err e2) = .err (.joined [e1, e2]) ∧
    lookupHostMerge (.ok as) (.err e2) =
      (if as = [] then .err .noData else .ok as) ∧
    lookupHostMerge (.err e1) (.ok bs) =
      (if bs = [] then .err .noData else .ok bs) ∧
    lookupHostMerge (.ok as) (.ok bs) =
      (if as ++ bs = [] then .err .noData else .ok (as ++ bs)) := by
  refine ⟨rfl, rfl, ?_, ?_, ?_⟩
  · simp only [lookupHostMerge, outcomeValue, List.append_nil]
    split_ifs with h1 h2 h2 <;> first | rfl | omega |
      (exfalso; revert h1; simp_all [List.length_eq_zero])
  · simp only [lookupHostMerge, outcomeValue, List.nil_append]
    split_ifs with h1 h2 h2 <;> first | rfl | omega |
      (exfalso; revert h1; simp_all [List.length_eq_zero])
  · simp only [lookupHostMerge, outcomeValue]
    split_ifs with h1 h2 h2 <;> first | rfl | omega |
      (exfalso; revert h1; simp_all [List.length_eq_zero])

end Minest

namespace Minest

/-- C6 counterexample: with an empty exchanger list the dmi `Client` does
not fail with `NoTransport`: `Client.lookup` returns a nil response together
with a nil error (`errors.Join` of an empty list), and `Client.LookupA` then
dereferences the nil response (panic) instead of returning an error. -/
theorem clientLookup_empty_exchangers_not_noTransport :
    clientLookup false [] (NewQuery [97] typeA) = (none, none) ∧
      clientLookupA false [] [97] = .panicked :=
  ⟨rfl, rfl⟩

/-- C6 (amended): the minest `Resolver` with an empty transport list fails
every lookup with the `NoTransport` error before attempting any exchange
(`LookupHost` with the join of its two sub-lookups' `NoTransport` errors);
the dmi `Client` has no such check and its `lookup` returns neither response
nor error on an empty exchanger list. -/
theorem resolver_empty_transports_noTransport (canceled : Bool)
    (domain : Name) (q : Query) :
    resolverLookup canceled [] q = .err .noTransport ∧
    resolverLookupA canceled [] domain = .err .noTransport ∧
    resolverLookupAAAA canceled [] domain = .err .noTransport ∧
    resolverLookupCNAME canceled [] domain = .err .noTransport ∧
    resolverLookupHost canceled [] domain =
      .err (.joined [.noTransport, .noTransport]) ∧
    clientLookup canceled [] q = (none, none) :=
  ⟨rfl, rfl, rfl, rfl, rfl, rfl⟩

/-- C7: with one configured transport and a context canceled before the
lookup starts, `Resolver.lookup` breaks out of the transport loop without
collecting any error, so `runtimex.Assert(len(errv) >= 1)` fails and the
lookup panics instead of returning the cancellation error; `Client.lookup`
likewise yields a nil response with a nil error, so the typed lookups panic
on a nil dereference.  No transport exchange is attempted (the transport
here would succeed if it were consulted). -/
theorem resolver_canceled_context_panics :
    resolverLookup true [exTransport] (NewQuery [97] typeA) = .panicked ∧
    resolverLookupHost true [exTransport] [97] = .panicked ∧
    clientLookup true [exTransport] (NewQuery [97] typeA) = (none, none) ∧
    clientLookupA true [exTransport] [97] = .panicked :=
  ⟨rfl, rfl, rfl, rfl⟩

end Minest

namespace Minest

theorem dialerDialLoop_first_success (dial : String → Except DNSError Nat)
    (pre : List String) (a : String) (rest : List String) (c : Nat)
    (hpre : ∀ x ∈ pre, ∃ e, dial x = .error e) (ha : dial a = .ok c) :
    ∀ errv, dialerDialLoop dial (pre ++ a :: rest) errv = .conn c := by
  induction pre with
  | nil =>
    intro errv
    simp [dialerDialLoop, ha]
  | cons x pre ih =>
    intro errv
    obtain ⟨e, he⟩ := hpre x (by simp)
    simp only [List.cons_append, dialerDialLoop, he]
    exact ih (fun y hy => hpre y (by simp [hy])) (errv ++ [e])

theorem exceptErrOption_error {α : Type} (e : DNSError) :
    exceptErrOption (α := α) (.error e) = some e := rfl

theorem dialerDialLoop_all_fail (dial : String → Except DNSError Nat)
    (addrs : List String)
    (hall : ∀ x ∈ addrs, ∃ e, dial x = .error e) :
    ∀ errv, dialerDialLoop dial addrs errv =
      (match goJoin (errv ++ addrs.filterMap
          fun x => exceptErrOption (dial x)) with
       | some e => .err e
       | none => .errNil) := by
  induction addrs with
  | nil =>
    intro errv
    simp [dialerDialLoop]
  | cons x rest ih =>
    intro errv
    obtain ⟨e, he⟩ := hall x (by simp)
    simp only [dialerDialLoop, he, List.filterMap_cons, exceptErrOption_error]
    rw [ih (fun y hy => hall y (by simp [hy])) (errv ++ [e])]
    simp

/-- C8: when the host parses as an IP literal, `Dialer.DialContext` skips
name resolution entirely (the result is independent of the injected
resolver) and dials that single candidate directly; for a non-literal host
it uses the resolver's addresses and attempts them strictly in resolver
order: the first successful connection is returned, and if every candidate
fails the per-address errors are combined in order. -/
theorem dialerDialContext_spec :
    (∀ (parseIPOk : String → Bool)
        (reso reso2 : String → Except DNSError (List String))
        (dial : String → Except DNSError Nat) (name : String),
      parseIPOk name = true →
        dialerDialContext parseIPOk reso dial name =
          dialerDialLoop dial [name] [] ∧
        dialerDialContext parseIPOk reso dial name =
          dialerDialContext parseIPOk reso2 dial name) ∧
    (∀ (parseIPOk : String → Bool)
        (reso : String → Except DNSError (List String))
        (dial : String → Except DNSError Nat) (name : String)
        (addrs : List String),
      parseIPOk name = false → reso name = .ok addrs → 1 ≤ addrs.length →
        dialerDialContext parseIPOk reso dial name =
          dialerDialLoop dial addrs []) ∧
    (∀ (dial : String → Except DNSError Nat) (pre : List String)
        (a : String) (rest : List String) (c : Nat),
      (∀ x ∈ pre, ∃ e, dial x = .error e) → dial a = .ok c →
        dialerDialLoop dial (pre ++ a :: rest) [] = .conn c) ∧
    (∀ (dial : String → Except DNSError Nat) (addrs : List String),
      addrs ≠ [] → (∀ x ∈ addrs, ∃ e, dial x = .error e) →
        dialerDialLoop dial addrs [] =
          .err (.joined (addrs.filterMap
            fun x => exceptErrOption (dial x)))) := by
  refine ⟨?_, ?_, ?_, ?_⟩
  · intro parseIPOk reso reso2 dial name hip
    constructor
    · simp [dialerDialContext, dialerLookupHost, hip]
    · simp [dialerDialContext, dialerLookupHost, hip]
  · intro parseIPOk reso dial name addrs hip hreso hlen
    simp [dialerDialContext, dialerLookupHost, hip, hreso, hlen]
  · intro dial pre a rest c hpre ha
    exact dialerDialLoop_first_success dial pre a rest c hpre ha []
  · intro dial addrs hne hall
    rw [dialerDialLoop_all_fail dial addrs hall []]
    have hfm : addrs.filterMap (fun x => exceptErrOption (dial x)) ≠ [] := by
      cases addrs with
      | nil => exact absurd rfl hne
      | cons x rest =>
        obtain ⟨e, he⟩ := hall x (by simp)
        simp [List.filterMap_cons, he, exceptErrOption]
    simp only [List.nil_append, goJoin]
    rw [if_neg (by simpa using hfm)]

/-- Witness for C8: a literal host is dialed directly, and with candidates
`["w", "x", "y"]` where only `"x"` connects, the loop returns the `"x"`
connection after `"w"` fails. -/
theorem dialerDialContext_spec_witness :
    dialerDialContext (fun s => s == "1.2.3.4") (fun _ => .error .noData)
        (fun a => if a = "x" then .ok 1 else .error (.transportErr 0))
        "1.2.3.4" =
      dialerDialLoop
        (fun a => if a = "x" then .ok 1 else .error (.transportErr 0))
        ["1.2.3.4"] [] ∧
    dialerDialLoop
        (fun a => if a = "x" then .ok 1 else .error (.transportErr 0))
        (["w"] ++ "x" :: ["y"]) [] = .conn 1 :=
  ⟨(dialerDialContext_spec.1 (fun s => s == "1.2.3.4")
      (fun _ => .error .noData) (fun _ => .ok [])
      (fun a => if a = "x" then .ok 1 else .error (.transportErr 0))
      "1.2.3.4" (by decide)).1,
   dialerDialContext_spec.2.2.1
     (fun a => if a = "x" then .ok 1 else .error (.transportErr 0))
     ["w"] "x" ["y"] 1
     (by
       intro x hx
       simp only [List.mem_singleton] at hx
       subst hx
       exact ⟨.transportErr 0, by simp⟩)
     (by simp)⟩

end Minest

namespace Minest

theorem lookupHostMerge_ok_ne_nil (a b : Outcome (List String))
    (addrs : List String) (h : lookupHostMerge a b = .ok addrs) :
    addrs ≠ [] := by
  cases a <;> cases b <;>
    simp only [lookupHostMerge] at h <;>
    first
      | exact Outcome.noConfusion h
      | (split_ifs at h with hl
         injection h with h
         subst h
         intro hnil
         rw [hnil] at hl
         simp at hl)

theorem dialerDialLoop_ne_panicked (dial : String → Except DNSError Nat)
    (addrs : List String) :
    ∀ errv, dialerDialLoop dial addrs errv ≠ .panicked := by
  induction addrs with
  | nil =>
    intro errv
    cases hgj : goJoin errv <;> simp [dialerDialLoop, hgj]
  | cons x rest ih =>
    intro errv
    cases hd : dial x <;> simp [dialerDialLoop, hd, ih]

/-- C10: the typed projections fail with `NoData` when no record of the
requested type is present, so a nil-error return from `RecordsA` or
`RecordsAAAA` carries a non-empty list; consequently `LookupA`, `LookupAAAA`
and `LookupHost` return a non-empty address list whenever they succeed, and
the Dialer's `runtimex.Assert(len(addrs) >= 1)` cannot fire when its
resolver succeeds with a non-empty list. -/
theorem lookup_success_nonempty (r : ResponseV) (canceled : Bool)
    (ts : List DNSTransport) (domain : Name) :
    (∀ out, r.RecordsA = .ok out → out ≠ []) ∧
    (∀ out, r.RecordsAAAA = .ok out → out ≠ []) ∧
    (∀ addrs, resolverLookupA canceled ts domain = .ok addrs →
      addrs ≠ []) ∧
    (∀ addrs, resolverLookupAAAA canceled ts domain = .ok addrs →
      addrs ≠ []) ∧
    (∀ addrs, resolverLookupHost canceled ts domain = .ok addrs →
      addrs ≠ []) ∧
    (∀ (parseIPOk : String → Bool)
        (reso : String → Except DNSError (List String))
        (dial : String → Except DNSError Nat) (name : String)
        (addrs : List String),
      parseIPOk name = false → reso name = .ok addrs → addrs ≠ [] →
        dialerDialContext parseIPOk reso dial name ≠ .panicked) := by
  have hA : ∀ (rv : ResponseV) out, rv.RecordsA = .ok out → out ≠ [] := by
    intro rv out h
    simp only [ResponseV.RecordsA] at h
    split_ifs at h with hlen
    injection h with h
    subst h
    intro hnil
    rw [hnil] at hlen
    simp at hlen
  have hAAAA : ∀ (rv : ResponseV) out, rv.RecordsAAAA = .ok out →
      out ≠ [] := by
    intro rv out h
    simp only [ResponseV.RecordsAAAA] at h
    split_ifs at h with hlen
    injection h with h
    subst h
    intro hnil
    rw [hnil] at hlen
    simp at hlen
  refine ⟨hA r, hAAAA r, ?_, ?_, ?_, ?_⟩
  · intro addrs h
    simp only [resolverLookupA] at h
    cases hl : resolverLookup canceled ts (NewQuery domain typeA) with
    | err e =>
      rw [hl] at h
      exact Outcome.noConfusion h
    | panicked =>
      rw [hl] at h
      exact Outcome.noConfusion h
    | ok resp =>
      rw [hl] at h
      have h2 : exceptToOutcome resp.RecordsA = Outcome.ok addrs := h
      cases hr : resp.RecordsA with
      | error e =>
        rw [hr] at h2
        exact Outcome.noConfusion h2
      | ok out =>
        rw [hr] at h2
        have h3 : Outcome.ok out = Outcome.ok addrs := h2
        injection h3 with h3
        subst h3
        exact hA resp out hr
  · intro addrs h
    simp only [resolverLookupAAAA] at h
    cases hl : resolverLookup canceled ts (NewQuery domain typeAAAA) with
    | err e =>
      rw [hl] at h
      exact Outcome.noConfusion h
    | panicked =>
      rw [hl] at h
      exact Outcome.noConfusion h
    | ok resp =>
      rw [hl] at h
      have h2 : exceptToOutcome resp.RecordsAAAA = Outcome.ok addrs := h
      cases hr : resp.RecordsAAAA with
      | error e =>
        rw [hr] at h2
        exact Outcome.noConfusion h2
      | ok out =>
        rw [hr] at h2
        have h3 : Outcome.ok out = Outcome.ok addrs := h2
        injection h3 with h3
        subst h3
        exact hAAAA resp out hr
  · intro addrs h
    exact lookupHostMerge_ok_ne_nil _ _ addrs h
  · intro parseIPOk reso dial name addrs hip hreso hne
    have hlen : 1 ≤ addrs.length := by
      cases addrs with
      | nil => exact absurd rfl hne
      | cons x rest => simp
    simp only [dialerDialContext, dialerLookupHost, hip, hreso,
      Bool.false_eq_true, if_false]
    rw [if_pos hlen]
    exact dialerDialLoop_ne_panicked dial addrs []

end Minest

namespace Minest

/-- Witness for C10: the example response yields exactly one A address, and a
dialer whose resolver succeeds with that address cannot hit the assertion
even though every connect attempt fails. -/
theorem lookup_success_nonempty_witness :
    ["10.0.0.1"] ≠ ([] : List String) ∧
      dialerDialContext (fun _ => false) (fun _ => .ok ["10.0.0.1"])
        (fun _ => .error (.transportErr 0)) "b" ≠ .panicked :=
  ⟨(lookup_success_nonempty exResponse false [] []).1 ["10.0.0.1"] (by rfl),
   (lookup_success_nonempty exResponse false [] []).2.2.2.2.2
     (fun _ => false) (fun _ => .ok ["10.0.0.1"])
     (fun _ => .error (.transportErr 0)) "b" ["10.0.0.1"] rfl rfl
     (by simp)⟩

end Minest

namespace Minest

/-- Witness for C2 (amended): instantiating the characterization on an
NXDOMAIN response yields the `NoSuchHost` mapping. -/
theorem responseRcodeToError_characterization_witness :
    responseRcodeToError
        { id := 1, response := true, authoritative := false
          recursionAvailable := false, rcode := rcodeNameError
          question := [], answer := [] } = some .noSuchHost :=
  (responseRcodeToError_characterization
    { id := 1, response := true, authoritative := false
      recursionAvailable := false, rcode := rcodeNameError
      question := [], answer := [] }).1.mpr rfl

end Minest
